import Mathlib

/-!
Shallow embedding of the `digitalaltar/wrap` sources: an immersive-VR demo
with an animated cylinder shader, a desktop/immersive session lifecycle and
joystick input.  The embedding covers `src/scripts/wrap.js` (the latest
iteration) and the first file of `src/unnamed/part_000` (the iteration whose
frame loop reads controller joystick axes).  External library behaviour
(rendering, OrbitControls internals, texture decoding) is out of scope per
the specification and is either abstracted as a function parameter or left
out of the state where the repository code never observes it.
-/

/-! ## Environment shader (fragment stage), over the reals -/

/-- An RGBA colour, the value of `gl_FragColor` / a sampled texel. -/
structure Color4 where
  r : ℝ
  g : ℝ
  b : ℝ
  a : ℝ

/-- `dot(texColor.rgb, vec3(0.299, 0.587, 0.114))` from the active fragment
shader of `wrap.js`. -/
def luminance (c : Color4) : ℝ :=
  c.r * 0.299 + c.g * 0.587 + c.b * 0.114

/-- `sin(time) * 0.5 + 0.5`, the pulsating factor of the active fragment
shader. -/
noncomputable def pulse (time : ℝ) : ℝ :=
  Real.sin time * 0.5 + 0.5

/-- The initial fragment shader of `customMaterial`: a fixed opaque black,
used until the texture load completes (`gl_FragColor = vec4(0.0, 0.0, 0.0, 1.0)`). -/
def fragmentShaderUninit : Color4 :=
  { r := 0, g := 0, b := 0, a := 1 }

/-- The replacement fragment shader installed once the texture has loaded
(`wrap.js` lines 81-93): glow = texColor.rgb * (luminance * (1 + pulse)),
output = vec4(texColor.rgb + glow * 0.5, texColor.a). -/
noncomputable def fragmentShaderActive (texColor : Color4) (time : ℝ) : Color4 :=
  let lum := luminance texColor
  let p := pulse time
  { r := texColor.r + texColor.r * (lum * (1 + p)) * 0.5
  , g := texColor.g + texColor.g * (lum * (1 + p)) * 0.5
  , b := texColor.b + texColor.b * (lum * (1 + p)) * 0.5
  , a := texColor.a }

/-! ## Asset selector (`fetch('./data.json')` handler) -/

/-- `Math.floor(Math.random() * backgrounds.length)` with the call to
`Math.random()` made explicit as the parameter `r` (a value in `[0, 1)`). -/
def randomIndex (r : ℚ) (n : ℕ) : ℤ :=
  Int.floor (r * n)

/-- `backgrounds[randomIndex]`: `none` models JavaScript `undefined`
(out-of-bounds indexing, which happens exactly when the list is empty). -/
def selectBackground (backgrounds : List String) (r : ℚ) : Option String :=
  backgrounds.get? (randomIndex r backgrounds.length).toNat

/-- The two states of the environment shader: the initial black material and
the textured glow material installed by the load callback. -/
inductive ShaderPhase where
  | uninitialized : ShaderPhase
  | active : ShaderPhase
deriving DecidableEq

/-- Outcome of the startup texture load.  If the selection produced no path
(empty `backgrounds`) or the external loader fails on the selected path, the
load callback never runs and `customMaterial` keeps its uninitialized black
shader; otherwise the callback installs the active glow shader. -/
def materialAfterLoad (backgrounds : List String) (r : ℚ)
    (loadSucceeds : String → Bool) : ShaderPhase :=
  match selectBackground backgrounds r with
  | none => ShaderPhase.uninitialized
  | some bg => if loadSucceeds bg then ShaderPhase.active else ShaderPhase.uninitialized

/-! ## Camera and program state of `wrap.js` -/

/-- `THREE.Vector3`, rational components. -/
structure Vec3 where
  x : ℚ
  y : ℚ
  z : ℚ
deriving DecidableEq

/-- `THREE.Quaternion`, rational components. -/
structure Quat where
  x : ℚ
  y : ℚ
  z : ℚ
  w : ℚ
deriving DecidableEq

/-- The camera fields the repository code reads or writes: `position`,
`quaternion` and `aspect`. -/
structure Camera where
  position : Vec3
  quaternion : Quat
  aspect : ℚ
deriving DecidableEq

/-- `savedCameraState` (`wrap.js` line 59): a position and a quaternion. -/
structure SavedCamera where
  position : Vec3
  quaternion : Quat
deriving DecidableEq

/-- The mutable module-level state of `wrap.js` that the session listeners and
`animate` touch.  `timeUniform` is `customMaterial.uniforms.time.value`,
`none` while `customMaterial.uniforms` has no `time` entry (before the texture
load callback runs).  `isPresenting` mirrors `renderer.xr.isPresenting`,
which the external XR runtime sets around the session events. -/
structure WrapState where
  camera : Camera
  savedCameraState : SavedCamera
  timeUniform : Option ℚ
  debugColor : String
  controlsEnabled : Bool
  isPresenting : Bool
deriving DecidableEq

/-- The module-level state right after scene setup: camera at `z = 3` with the
default identity orientation, `savedCameraState` holding the default
`Vector3()` / `Quaternion()` values (origin, identity), no `time` uniform yet,
debug cube green. -/
def initialWrapState (width height : ℚ) : WrapState :=
  { camera := { position := { x := 0, y := 0, z := 3 }
              , quaternion := { x := 0, y := 0, z := 0, w := 1 }
              , aspect := width / height }
  , savedCameraState := { position := { x := 0, y := 0, z := 0 }
                        , quaternion := { x := 0, y := 0, z := 0, w := 1 } }
  , timeUniform := none
  , debugColor := "green"
  , controlsEnabled := true
  , isPresenting := false }

/-- Global speed constant of `wrap.js` line 195 (defined in the source, never
read by it). -/
def panSpeed : ℚ := 0.1

/-- Global speed constant of `wrap.js` line 196 (defined in the source, never
read by it). -/
def forwardSpeed : ℚ := 0.1

/-- `handleControllerInput` (`wrap.js` lines 198-201): sets the debug cube's
colour to yellow and nothing else. -/
def handleControllerInput (s : WrapState) : WrapState :=
  { s with debugColor := "yellow" }

/-- The guarded time-uniform increment at the top of `animate`:
`if (customMaterial && customMaterial.uniforms.time) { ... += 0.05 }`. -/
def tickTime (u : Option ℚ) : Option ℚ :=
  u.map (fun t => t + 0.05)

/-- `animate` of `wrap.js` (lines 224-240).  `orbitUpdate` abstracts the
external `controls.update()` call of the desktop branch (OrbitControls may
move the camera; its internals are out of scope).  `renderer.render` mutates
no modelled state. -/
def animate (orbitUpdate : Camera → Camera) (s : WrapState) : WrapState :=
  let s1 := { s with timeUniform := tickTime s.timeUniform }
  if s1.isPresenting then
    handleControllerInput (handleControllerInput s1)
  else
    { s1 with camera := orbitUpdate s1.camera }

/-- The `sessionstart` listener (`wrap.js` lines 116-120): copy the camera's
position and quaternion into `savedCameraState`.  The XR runtime makes the
renderer present from here on, modelled by setting `isPresenting`. -/
def sessionStart (s : WrapState) : WrapState :=
  { s with
      savedCameraState := { position := s.camera.position
                          , quaternion := s.camera.quaternion },
      isPresenting := true }

/-- The `sessionend` listener (`wrap.js` lines 122-135): copy
`savedCameraState` back into the camera, recompute the aspect ratio from the
viewport, re-enable the desktop controls.  `renderer.setSize`,
`camera.updateProjectionMatrix()` and `controls.update()` are external calls
outside the modelled state. -/
def sessionEnd (width height : ℚ) (s : WrapState) : WrapState :=
  { s with
      camera := { position := s.savedCameraState.position
                , quaternion := s.savedCameraState.quaternion
                , aspect := width / height },
      controlsEnabled := true,
      isPresenting := false }

/-! ## Program state of the first `src/unnamed/part_000` iteration -/

/-- A WebXR `Gamepad` as the iteration reads it: its `axes` array. -/
structure Gamepad where
  axes : List ℚ
deriving DecidableEq

/-- The environment cylinder fields the iteration mutates: `rotation.y` and
`position.z`. -/
structure Cylinder where
  rotationY : ℚ
  positionZ : ℚ
deriving DecidableEq

/-- An XR session as observed by the iteration's `animate`: its
`inputSources` list.  An entry is `none` when the input source is missing or
reports no `gamepad` (the code's `inputSource && inputSource.gamepad`
checks). -/
structure Session where
  inputSources : List (Option Gamepad)
deriving DecidableEq

/-- Module-level state of the `part_000` iteration: `currentSession`
(`null` outside VR), the cylinder (`undefined` until the texture load
callback creates it), the `time` uniform and the camera. -/
structure Part000State where
  timeUniform : Option ℚ
  currentSession : Option Session
  cylinder : Option Cylinder
  camera : Camera
deriving DecidableEq

/-- The body of the `inputSources.forEach` callback (`part_000` lines
148-161): with a gamepad present, a non-empty `axes` array and at least 4
axes, add `axes[2] * 0.02` to the cylinder's `rotation.y` and
`axes[3] * 0.05` to its `position.z`; in every other case do nothing. -/
def processInputSource (cyl : Option Cylinder) (gp : Option Gamepad) : Option Cylinder :=
  match gp with
  | none => cyl
  | some g =>
    if g.axes.length > 0 then
      if 4 ≤ g.axes.length then
        match cyl with
        | none => none
        | some c =>
          some { c with
                   rotationY := c.rotationY + g.axes.getD 2 0 * 0.02,
                   positionZ := c.positionZ + g.axes.getD 3 0 * 0.05 }
      else cyl
    else cyl

/-- `animate` of the `part_000` iteration (lines 142-165): tick the time
uniform when present, then, when a session is current, fold the
`inputSources.forEach` body over the input sources.  `renderer.render`
mutates no modelled state. -/
def animate000 (s : Part000State) : Part000State :=
  let s1 := { s with timeUniform := tickTime s.timeUniform }
  match s1.currentSession with
  | none => s1
  | some sess => { s1 with cylinder := sess.inputSources.foldl processInputSource s1.cylinder }

/-! ## Helper lemmas -/

/-- An `animate` frame taken while presenting recolours the debug cube and
ticks the time uniform, touching nothing else. -/
theorem animate_presenting_fields (f : Camera → Camera) (s : WrapState)
    (h : s.isPresenting = true) :
    (animate f s).camera = s.camera ∧
    (animate f s).savedCameraState = s.savedCameraState ∧
    (animate f s).isPresenting = true := by
  simp [animate, handleControllerInput, h]

/-- Any number of presenting `animate` frames preserves the saved camera slot
and the presenting flag. -/
theorem animate_iterate_presenting (f : Camera → Camera) (n : ℕ) (s : WrapState)
    (h : s.isPresenting = true) :
    ((animate f)^[n] s).savedCameraState = s.savedCameraState ∧
    ((animate f)^[n] s).isPresenting = true := by
  induction n generalizing s with
  | zero => exact ⟨rfl, h⟩
  | succ n ih =>
    rw [Function.iterate_succ_apply]
    obtain ⟨hc, hs, hp⟩ := animate_presenting_fields f s h
    obtain ⟨ih1, ih2⟩ := ih (animate f s) hp
    exact ⟨ih1.trans hs, ih2⟩

/-! ## C1 -/

/-- C1 counterexample: the `sessionend` listener is not guarded.  Fired on
the freshly initialized state (no prior `sessionstart`), it overwrites the
camera position (initially `z = 3`) with the default saved slot (the origin),
altering CameraState. -/
theorem c1_sessionEnd_not_noop :
    (sessionEnd 16 9 (initialWrapState 16 9)).camera.position ≠
      (initialWrapState 16 9).camera.position := by
  decide

/-- C1 amended: the `sessionend` listener unconditionally copies
`savedCameraState` into the camera; it leaves the camera's position and
orientation unchanged exactly when the camera already equals the saved slot
(which fails on the initial state, where the slot holds the origin and the
camera sits at `z = 3`). -/
theorem c1_sessionEnd_unconditional_restore (width height : ℚ) (s : WrapState) :
    (sessionEnd width height s).camera.position = s.savedCameraState.position ∧
    (sessionEnd width height s).camera.quaternion = s.savedCameraState.quaternion ∧
    (((sessionEnd width height s).camera.position = s.camera.position ∧
      (sessionEnd width height s).camera.quaternion = s.camera.quaternion) ↔
      (s.savedCameraState.position = s.camera.position ∧
       s.savedCameraState.quaternion = s.camera.quaternion)) := by
  exact ⟨rfl, rfl, Iff.rfl⟩

/-! ## C2 -/

/-- The `part_000` state for the spec's end-to-end navigation scenario: a
presenting session whose single controller reports the spec's axis pair
`[0.5, -0.05]` in the slots the code actually reads (`axes[2]`, `axes[3]`),
with the cylinder loaded and the camera at its start position. -/
def scenarioState : Part000State :=
  { timeUniform := some 0
  , currentSession := some { inputSources := [some { axes := [0, 0, 0.5, -0.05] }] }
  , cylinder := some { rotationY := 0, positionZ := 0 }
  , camera := { position := { x := 0, y := 0, z := 3 }
              , quaternion := { x := 0, y := 0, z := 0, w := 1 }
              , aspect := 16 / 9 } }

/-- C2 counterexample: one immersive frame on the scenario state (axes
`[0.5, -0.05]`) moves the camera by `0`, not by `+0.05 = panSpeed * 0.5`, on
the horizontal axis: no code path applies controller axes to the camera. -/
theorem c2_scenario_no_camera_pan :
    (animate000 scenarioState).camera.position.x =
      scenarioState.camera.position.x ∧
    ¬ (animate000 scenarioState).camera.position.x =
        scenarioState.camera.position.x + panSpeed * (1/2) := by
  refine ⟨rfl, ?_⟩
  show ¬ ((0 : ℚ) = 0 + panSpeed * (1/2))
  norm_num [panSpeed]

/-- C2 amended: controller axes never contribute any camera movement (so
axis values below the spec's deadzone contribute zero movement vacuously):
a `part_000` immersive frame applies the axes only to the environment
cylinder and leaves the camera unchanged, and a presenting `wrap.js` frame
only recolours the debug cube; in particular the scenario axes `[0.5, -0.05]`
move the camera by `0` on both axes, not by `+0.05` horizontally. -/
theorem c2_axes_never_move_camera :
    (∀ s : Part000State, (animate000 s).camera = s.camera) ∧
    (∀ (f : Camera → Camera) (s : WrapState), s.isPresenting = true →
      (animate f s).camera = s.camera) := by
  constructor
  · intro s
    rcases s with ⟨t, sess, cyl, cam⟩
    cases sess <;> rfl
  · intro f s h
    exact (animate_presenting_fields f s h).1

/-- C2 amended, witness: the amended statement evaluated on the scenario
state and on a presenting `wrap.js` state. -/
theorem c2_axes_never_move_camera_witness :
    (animate000 scenarioState).camera = scenarioState.camera ∧
    (animate id { initialWrapState 16 9 with isPresenting := true }).camera =
      ({ initialWrapState 16 9 with isPresenting := true } : WrapState).camera :=
  ⟨c2_axes_never_move_camera.1 scenarioState,
   c2_axes_never_move_camera.2 id { initialWrapState 16 9 with isPresenting := true } rfl⟩

/-! ## C3 -/

/-- C3: session-start saves the camera, session-end restores it; with any
number of intervening immersive frames (none of which mutates the camera or
the saved slot), the camera's position and orientation after `sessionend`
equal the pre-session values exactly. -/
theorem c3_save_restore_roundtrip (f : Camera → Camera) (n : ℕ)
    (width height : ℚ) (s : WrapState) :
    (sessionEnd width height ((animate f)^[n] (sessionStart s))).camera.position =
      s.camera.position ∧
    (sessionEnd width height ((animate f)^[n] (sessionStart s))).camera.quaternion =
      s.camera.quaternion := by
  obtain ⟨h1, _⟩ := animate_iterate_presenting f n (sessionStart s) rfl
  constructor
  · show ((animate f)^[n] (sessionStart s)).savedCameraState.position = _
    rw [h1]; rfl
  · show ((animate f)^[n] (sessionStart s)).savedCameraState.quaternion = _
    rw [h1]; rfl

/-! ## C4 -/

/-- C4: for a non-empty `backgrounds` list the selected index
`Math.floor(Math.random() * backgrounds.length)` lies in `[0, N-1]` for every
`Math.random()` outcome `r ∈ [0, 1)`; for the empty list the selection yields
`undefined` (no out-of-bounds crash, the lookup is total) and the material
keeps its uninitialized default-colour shader. -/
theorem c4_asset_selector_bounds (r : ℚ) (backgrounds : List String)
    (h0 : 0 ≤ r) (h1 : r < 1) :
    (0 < backgrounds.length →
      0 ≤ randomIndex r backgrounds.length ∧
      randomIndex r backgrounds.length ≤ (backgrounds.length : ℤ) - 1) ∧
    (backgrounds = [] →
      selectBackground backgrounds r = none ∧
      ∀ loadSucceeds, materialAfterLoad backgrounds r loadSucceeds =
        ShaderPhase.uninitialized) := by
  constructor
  · intro hn
    unfold randomIndex
    constructor
    · exact Int.floor_nonneg.mpr (mul_nonneg h0 (by positivity))
    · have hq : (0 : ℚ) < (backgrounds.length : ℚ) := by exact_mod_cast hn
      have hlt : r * (backgrounds.length : ℚ) < (backgrounds.length : ℚ) := by
        nlinarith
      have hfl : Int.floor (r * (backgrounds.length : ℚ)) < (backgrounds.length : ℤ) := by
        refine Int.floor_lt.mpr ?_
        push_cast
        exact hlt
      omega
  · intro he
    subst he
    exact ⟨rfl, fun _ => rfl⟩

/-- C4 witness: the theorem evaluated on a two-element list with `r = 1/2`
and on the empty list. -/
theorem c4_asset_selector_bounds_witness :
    (0 ≤ randomIndex (1/2) 2 ∧ randomIndex (1/2) 2 ≤ (2 : ℤ) - 1) ∧
    selectBackground [] (1/2) = none ∧
    materialAfterLoad [] (1/2) (fun _ => false) = ShaderPhase.uninitialized := by
  refine ⟨(c4_asset_selector_bounds (1/2) ["a.png", "b.png"]
      (by norm_num) (by norm_num)).1 (by decide), ?_, ?_⟩
  · exact ((c4_asset_selector_bounds (1/2) [] (by norm_num) (by norm_num)).2 rfl).1
  · exact ((c4_asset_selector_bounds (1/2) [] (by norm_num) (by norm_num)).2 rfl).2
      (fun _ => false)

/-! ## C5 -/

/-- Both branches of `animate` leave the time uniform at the value produced
by the guarded increment at the top of the function. -/
theorem animate_timeUniform (f : Camera → Camera) (s : WrapState) :
    (animate f s).timeUniform = tickTime s.timeUniform := by
  unfold animate handleControllerInput
  by_cases h : s.isPresenting <;> simp [h]

/-- C5: each `animate` invocation adds exactly `0.05` to the time uniform
when it exists (so the value never decreases) and leaves it absent when the
texture load has not yet installed it. -/
theorem c5_elapsedTime_step (f : Camera → Camera) (s : WrapState) :
    (s.timeUniform = none → (animate f s).timeUniform = none) ∧
    (∀ t : ℚ, s.timeUniform = some t →
      (animate f s).timeUniform = some (t + 0.05) ∧ t ≤ t + 0.05) := by
  constructor
  · intro h
    rw [animate_timeUniform, h]
    rfl
  · intro t h
    refine ⟨?_, by norm_num⟩
    rw [animate_timeUniform, h]
    rfl

/-- C5 witness: the theorem evaluated on the initial state (no uniform) and
on a state whose uniform holds `0`. -/
theorem c5_elapsedTime_step_witness :
    (animate id (initialWrapState 16 9)).timeUniform = none ∧
    ((animate id { initialWrapState 16 9 with timeUniform := some 0 }).timeUniform =
        some (0 + 0.05) ∧ (0 : ℚ) ≤ 0 + 0.05) :=
  ⟨(c5_elapsedTime_step id (initialWrapState 16 9)).1 rfl,
   (c5_elapsedTime_step id { initialWrapState 16 9 with timeUniform := some 0 }).2 0 rfl⟩

/-! ## C6 -/

/-- Folding the `forEach` body over input sources that all lack a gamepad or
report fewer than 2 axes leaves the cylinder untouched. -/
theorem foldl_processInputSource_noop (l : List (Option Gamepad)) (cyl : Option Cylinder)
    (hall : ∀ gp ∈ l, gp = none ∨ ∃ g, gp = some g ∧ g.axes.length < 2) :
    l.foldl processInputSource cyl = cyl := by
  induction l generalizing cyl with
  | nil => rfl
  | cons hd tl ih =>
    have hhd : processInputSource cyl hd = cyl := by
      rcases hall hd (List.mem_cons_self hd tl) with h | ⟨g, hg, hlen⟩
      · subst h; rfl
      · subst hg
        unfold processInputSource
        by_cases h0 : g.axes.length > 0
        · have h4 : ¬ 4 ≤ g.axes.length := by omega
          simp [h0, h4]
        · simp [h0]
    rw [List.foldl_cons, hhd]
    exact ih cyl (fun gp hgp => hall gp (List.mem_cons_of_mem hd hgp))

/-- C6: an input source without a gamepad, or whose gamepad reports fewer
than 2 axes, is a per-frame no-op: the `forEach` body returns the cylinder
unchanged, and a whole `animate` frame over such input sources changes
neither the cylinder nor the camera.  (The guards make the handler total:
the embedding is a total function, no access can throw.) -/
theorem c6_missing_input_noop :
    (∀ cyl : Option Cylinder, processInputSource cyl none = cyl) ∧
    (∀ (cyl : Option Cylinder) (g : Gamepad), g.axes.length < 2 →
      processInputSource cyl (some g) = cyl) ∧
    (∀ (s : Part000State) (sess : Session), s.currentSession = some sess →
      (∀ gp ∈ sess.inputSources, gp = none ∨ ∃ g, gp = some g ∧ g.axes.length < 2) →
      (animate000 s).cylinder = s.cylinder ∧ (animate000 s).camera = s.camera) := by
  refine ⟨fun cyl => rfl, ?_, ?_⟩
  · intro cyl g hlen
    unfold processInputSource
    by_cases h0 : g.axes.length > 0
    · have h4 : ¬ 4 ≤ g.axes.length := by omega
      simp [h0, h4]
    · simp [h0]
  · intro s sess hsess hall
    rcases s with ⟨t, csess, cyl, cam⟩
    simp only at hsess
    subst hsess
    unfold animate000
    exact ⟨foldl_processInputSource_noop sess.inputSources cyl hall, rfl⟩

/-- C6 witness: the theorem evaluated on a loaded cylinder with a missing
gamepad, a 1-axis gamepad, and a one-source presenting frame. -/
theorem c6_missing_input_noop_witness :
    processInputSource (some { rotationY := 1, positionZ := 2 }) none =
      some { rotationY := 1, positionZ := 2 } ∧
    processInputSource (some { rotationY := 1, positionZ := 2 })
        (some { axes := [1/2] }) = some { rotationY := 1, positionZ := 2 } ∧
    ((animate000
        { timeUniform := none
        , currentSession := some { inputSources := [none, some { axes := [1/2] }] }
        , cylinder := some { rotationY := 1, positionZ := 2 }
        , camera := { position := { x := 0, y := 0, z := 3 }
                    , quaternion := { x := 0, y := 0, z := 0, w := 1 }
                    , aspect := 16 / 9 } }).cylinder =
      some { rotationY := 1, positionZ := 2 } ∧
    (animate000
        { timeUniform := none
        , currentSession := some { inputSources := [none, some { axes := [1/2] }] }
        , cylinder := some { rotationY := 1, positionZ := 2 }
        , camera := { position := { x := 0, y := 0, z := 3 }
                    , quaternion := { x := 0, y := 0, z := 0, w := 1 }
                    , aspect := 16 / 9 } }).camera =
      { position := { x := 0, y := 0, z := 3 }
      , quaternion := { x := 0, y := 0, z := 0, w := 1 }
      , aspect := 16 / 9 }) := by
  refine ⟨c6_missing_input_noop.1 _, c6_missing_input_noop.2.1 _ { axes := [1/2] } (by decide), ?_⟩
  exact c6_missing_input_noop.2.2 _ { inputSources := [none, some { axes := [1/2] }] } rfl
    (by decide)

/-! ## C7 -/

/-- C7: in the active shader state, every output channel equals
`color + (color * luminance * (1 + pulse)) * glowWeight` with
`luminance = 0.299R + 0.587G + 0.114B`, `pulse = sin(time) * 0.5 + 0.5` and
`glowWeight = 0.5`, and the output alpha equals the input alpha. -/
theorem c7_active_shader_formula (c : Color4) (t : ℝ) :
    (fragmentShaderActive c t).r =
      c.r + (c.r * (0.299 * c.r + 0.587 * c.g + 0.114 * c.b) *
        (1 + (Real.sin t * 0.5 + 0.5))) * 0.5 ∧
    (fragmentShaderActive c t).g =
      c.g + (c.g * (0.299 * c.r + 0.587 * c.g + 0.114 * c.b) *
        (1 + (Real.sin t * 0.5 + 0.5))) * 0.5 ∧
    (fragmentShaderActive c t).b =
      c.b + (c.b * (0.299 * c.r + 0.587 * c.g + 0.114 * c.b) *
        (1 + (Real.sin t * 0.5 + 0.5))) * 0.5 ∧
    (fragmentShaderActive c t).a = c.a := by
  refine ⟨?_, ?_, ?_, rfl⟩ <;>
    · simp only [fragmentShaderActive, luminance, pulse]
      ring

/-! ## C8 -/

/-- C8: for every `elapsedTime ≥ 0` the pulsating factor
`sin(elapsedTime) * 0.5 + 0.5` lies in `[0, 1]`. -/
theorem c8_pulse_in_unit_interval (t : ℝ) (ht : 0 ≤ t) :
    0 ≤ pulse t ∧ pulse t ≤ 1 := by
  have h1 := Real.neg_one_le_sin t
  have h2 := Real.sin_le_one t
  unfold pulse
  constructor <;> nlinarith

/-- C8 witness: the bounds evaluated at `elapsedTime = 0`. -/
theorem c8_pulse_in_unit_interval_witness :
    0 ≤ pulse 0 ∧ pulse 0 ≤ 1 :=
  c8_pulse_in_unit_interval 0 le_rfl

/-! ## C9 -/

/-- C9: an immersive frame never touches the camera: a presenting `wrap.js`
`animate` call preserves the camera and the saved slot and only recolours
the debug cube, and a `part_000` `animate` call preserves the camera and the
session whatever the joystick axes say (they reach only the cylinder). -/
theorem c9_immersive_frame_preserves_camera :
    (∀ (f : Camera → Camera) (s : WrapState), s.isPresenting = true →
      (animate f s).camera = s.camera ∧
      (animate f s).savedCameraState = s.savedCameraState ∧
      (animate f s).debugColor = "yellow") ∧
    (∀ s : Part000State, (animate000 s).camera = s.camera ∧
      (animate000 s).currentSession = s.currentSession) := by
  constructor
  · intro f s h
    obtain ⟨hc, hs, _⟩ := animate_presenting_fields f s h
    refine ⟨hc, hs, ?_⟩
    simp [animate, handleControllerInput, h]
  · intro s
    rcases s with ⟨t, sess, cyl, cam⟩
    cases sess <;> exact ⟨rfl, rfl⟩

/-- C9 witness: the theorem evaluated on a presenting `wrap.js` state and on
a `part_000` state with a 4-axis gamepad. -/
theorem c9_immersive_frame_preserves_camera_witness :
    ((animate id { initialWrapState 4 3 with isPresenting := true }).camera =
      ({ initialWrapState 4 3 with isPresenting := true } : WrapState).camera ∧
     (animate id { initialWrapState 4 3 with isPresenting := true }).savedCameraState =
      ({ initialWrapState 4 3 with isPresenting := true } : WrapState).savedCameraState ∧
     (animate id { initialWrapState 4 3 with isPresenting := true }).debugColor =
      "yellow") ∧
    ((animate000
        { timeUniform := some 1
        , currentSession := some { inputSources := [some { axes := [0, 0, 1, 1] }] }
        , cylinder := some { rotationY := 0, positionZ := 0 }
        , camera := { position := { x := 0, y := 0, z := 3 }
                    , quaternion := { x := 0, y := 0, z := 0, w := 1 }
                    , aspect := 4 / 3 } }).camera =
      { position := { x := 0, y := 0, z := 3 }
      , quaternion := { x := 0, y := 0, z := 0, w := 1 }
      , aspect := 4 / 3 } ∧
     (animate000
        { timeUniform := some 1
        , currentSession := some { inputSources := [some { axes := [0, 0, 1, 1] }] }
        , cylinder := some { rotationY := 0, positionZ := 0 }
        , camera := { position := { x := 0, y := 0, z := 3 }
                    , quaternion := { x := 0, y := 0, z := 0, w := 1 }
                    , aspect := 4 / 3 } }).currentSession =
      some { inputSources := [some { axes := [0, 0, 1, 1] }] }) :=
  ⟨c9_immersive_frame_preserves_camera.1 id
      { initialWrapState 4 3 with isPresenting := true } rfl,
   c9_immersive_frame_preserves_camera.2
      { timeUniform := some 1
      , currentSession := some { inputSources := [some { axes := [0, 0, 1, 1] }] }
      , cylinder := some { rotationY := 0, positionZ := 0 }
      , camera := { position := { x := 0, y := 0, z := 3 }
                  , quaternion := { x := 0, y := 0, z := 0, w := 1 }
                  , aspect := 4 / 3 } }⟩

/-! ## C10 -/

/-- C10: the frame drivers are deterministic: two invocations from equal
states (same time uniform, session with its controller-axis samples,
cylinder and camera) produce equal states.  Randomness enters the embedding
only through the explicit `Math.random()` outcome `r` of `randomIndex` at
startup; neither `animate` nor `animate000` consumes any such value. -/
theorem c10_frame_deterministic (f : Camera → Camera)
    (s1 s2 : WrapState) (t1 t2 : Part000State)
    (hs : s1 = s2)
    (h1 : t1.timeUniform = t2.timeUniform)
    (h2 : t1.currentSession = t2.currentSession)
    (h3 : t1.cylinder = t2.cylinder)
    (h4 : t1.camera = t2.camera) :
    animate f s1 = animate f s2 ∧ animate000 t1 = animate000 t2 := by
  have ht : t1 = t2 := by
    cases t1
    cases t2
    simp_all
  subst hs
  subst ht
  exact ⟨rfl, rfl⟩

/-- C10 witness: determinism evaluated at a concrete state pair. -/
theorem c10_frame_deterministic_witness :
    animate id (initialWrapState 4 3) = animate id (initialWrapState 4 3) ∧
    animate000
        { timeUniform := none
        , currentSession := none
        , cylinder := none
        , camera := { position := { x := 0, y := 0, z := 3 }
                    , quaternion := { x := 0, y := 0, z := 0, w := 1 }
                    , aspect := 4 / 3 } } =
      animate000
        { timeUniform := none
        , currentSession := none
        , cylinder := none
        , camera := { position := { x := 0, y := 0, z := 3 }
                    , quaternion := { x := 0, y := 0, z := 0, w := 1 }
                    , aspect := 4 / 3 } } :=
  c10_frame_deterministic id (initialWrapState 4 3) (initialWrapState 4 3)
    { timeUniform := none
    , currentSession := none
    , cylinder := none
    , camera := { position := { x := 0, y := 0, z := 3 }
                , quaternion := { x := 0, y := 0, z := 0, w := 1 }
                , aspect := 4 / 3 } }
    { timeUniform := none
    , currentSession := none
    , cylinder := none
    , camera := { position := { x := 0, y := 0, z := 3 }
                , quaternion := { x := 0, y := 0, z := 0, w := 1 }
                , aspect := 4 / 3 } }
    rfl rfl rfl rfl rfl
